import Mathlib

/-!
Verification development for the BookTree backend.

The definitions below are a shallow embedding of the JavaScript sources:
MongoDB collections become lists of records, handler functions become pure
functions from a database state and a request to a new database state plus
an HTTP-style result, and JS falsiness of missing values is represented
with Option. Identifiers (Mongo ObjectIds) are modelled as natural numbers;
prices, stocks and quantities as integers.
-/

namespace BookTree

/-- An HTTP-level error reply: status code and error message, as produced
by the res.status(...).json(\x7berror: ...\x7d) calls in the controllers. -/
structure ErrorResponse where
  status : Nat
  error : String
deriving DecidableEq

deriving instance DecidableEq for Except

/-- A book document, from the Book class in the book controller.
The category field is an id reference that may be absent. -/
structure Book where
  id : Nat
  title : String
  author : String
  description : String
  price : Int
  category : Option Nat
  stock : Int
deriving DecidableEq

/-- A cart line as written by POST /cart/add in routes/user.js.
The cart endpoints store exactly these fields: no book id and no
per-line _id is ever written to a cart line. -/
structure CartLine where
  title : String
  author : String
  price : Int
  description : String
  quantity : Int
  addedAt : Nat
deriving DecidableEq

/-- A user document: registration writes name, email, a role of "user"
and an empty cart; the seed script can also create role "admin". -/
structure User where
  id : Nat
  name : String
  email : String
  role : String
  cart : List CartLine
deriving DecidableEq

/-- An immutable order line snapshot, built in the validation loop of
createOrder in orderController.js. -/
structure OrderLine where
  bookId : Nat
  title : String
  author : String
  price : Int
  quantity : Int
  subtotal : Int
deriving DecidableEq

/-- One statusHistory entry of an order. -/
structure StatusEntry where
  status : String
  notes : String
  timestamp : Nat
deriving DecidableEq

/-- The shipping address part of a create-order request; the controller
only inspects the address and city fields. -/
structure Address where
  address : String
  city : String
deriving DecidableEq

/-- An order document, as persisted by Order.create in orderController.js. -/
structure Order where
  id : Nat
  orderNumber : String
  userId : Nat
  items : List OrderLine
  totalAmount : Int
  status : String
  statusHistory : List StatusEntry
  shippingAddress : Address
  paymentMethod : String
  notes : String
  createdAt : Nat
deriving DecidableEq

/-- A category document from categoryController.js. -/
structure Category where
  id : Nat
  name : String
  description : String
  isActive : Bool
deriving DecidableEq

/-- The whole persistent state: the four MongoDB collections. -/
structure DB where
  books : List Book
  users : List User
  orders : List Order
  categories : List Category
deriving DecidableEq

/-- The decoded JWT payload attached to req.user by authenticateToken.
Tokens signed by this system carry userId and email; the role key is
optional because the authorization checks read it even though the
register and login endpoints never set it. -/
structure TokenClaims where
  userId : Nat
  email : String
  role : Option String
deriving DecidableEq

/-- The claim set signed by jwt.sign in the register and login handlers of
routes/user.js: exactly userId and email, never a role. -/
def signToken (userId : Nat) (email : String) : TokenClaims :=
  { userId := userId, email := email, role := none }

/-- Mongo findOne on the books collection by _id. -/
def findBook (books : List Book) (bid : Nat) : Option Book :=
  books.find? (fun b => b.id == bid)

/-- Mongo findOne on the orders collection by _id. -/
def findOrder (orders : List Order) (oid : Nat) : Option Order :=
  orders.find? (fun o => o.id == oid)

/-- Mongo findOne on the users collection by _id. -/
def findUser (users : List User) (uid : Nat) : Option User :=
  users.find? (fun u => u.id == uid)

/-- One item of a create-order request body. The bookId is an Option
because the controller guards against a missing bookId with a JS
falsiness test. -/
structure OrderItemReq where
  bookId : Option Nat
  quantity : Int
deriving DecidableEq

/-- The body of a POST /api/orders request, as read by createOrder. -/
structure CreateOrderReq where
  items : List OrderItemReq
  shippingAddress : Option Address
  paymentMethod : String
  notes : Option String
deriving DecidableEq

/-- The message of the insufficient-stock error of createOrder. -/
def insufficientStockMsg (book : Book) (requested : Int) : String :=
  "Insufficient stock for \"" ++ book.title ++ "\". Available: " ++
    toString book.stock ++ ", Requested: " ++ toString requested

/-- The up-front request validation of createOrder: items present and
nonempty, shipping address with address and city, payment method present.
Empty strings model JS falsy values. -/
def checkOrderReq (req : CreateOrderReq) : Option ErrorResponse :=
  if req.items.isEmpty then
    some { status := 400, error := "Order items are required" }
  else
    match req.shippingAddress with
    | none => some { status := 400, error := "Shipping address with address and city is required" }
    | some addr =>
      if addr.address == "" || addr.city == "" then
        some { status := 400, error := "Shipping address with address and city is required" }
      else if req.paymentMethod == "" then
        some { status := 400, error := "Payment method is required" }
      else
        none

/-- The per-item validation loop of createOrder: checks bookId presence and
positive quantity, fetches the book, checks stock, and accumulates the
total amount and the validated order-line snapshots in request order. -/
def validateItems (books : List Book) : List OrderItemReq → Except ErrorResponse (Int × List OrderLine)
  | [] => .ok (0, [])
  | item :: rest =>
    match item.bookId with
    | none => .error { status := 400, error := "Each item must have a valid bookId and quantity" }
    | some bid =>
      if item.quantity ≤ 0 then
        .error { status := 400, error := "Each item must have a valid bookId and quantity" }
      else
        match findBook books bid with
        | none => .error { status := 404, error := "Book with ID " ++ toString bid ++ " not found" }
        | some book =>
          if book.stock < item.quantity then
            .error { status := 400, error := insufficientStockMsg book item.quantity }
          else
            match validateItems books rest with
            | .error e => .error e
            | .ok (total, lines) =>
              .ok (book.price * item.quantity + total,
                   { bookId := bid, title := book.title, author := book.author,
                     price := book.price, quantity := item.quantity,
                     subtotal := book.price * item.quantity } :: lines)

/-- Left-pad a digit string to four characters with zeros, as
String(count + 1).padStart(4, "0") does. -/
def pad4 (s : String) : String :=
  if s.length < 4 then String.mk (List.replicate (4 - s.length) '0') ++ s else s

/-- Order.generateOrderNumber: the date part is passed in as a formatted
string and the counter is the current order count plus one. -/
def generateOrderNumber (orders : List Order) (date : String) : String :=
  "ORD-" ++ date ++ "-" ++ pad4 (toString (orders.length + 1))

/-- One updateOne with an $inc of -q on the stock of the book with the
given id. -/
def decStock (books : List Book) (bid : Nat) (q : Int) : List Book :=
  books.map (fun b => if b.id == bid then { b with stock := b.stock - q } else b)

/-- The post-creation loop of createOrder: one stock decrement per
validated line, applied in order. -/
def applyDecrements (books : List Book) : List OrderLine → List Book
  | [] => books
  | l :: rest => applyDecrements (decStock books l.bookId l.quantity) rest

/-- The cart-clearing updateOne of createOrder: sets the cart of the
ordering user to the empty list. -/
def clearCart (users : List User) (uid : Nat) : List User :=
  users.map (fun u => if u.id == uid then { u with cart := [] } else u)

/-- The createOrder controller. Besides the database and the decoded
token it takes the id Mongo would assign to the new order, the formatted
date used in the order number, and the current time. It returns the
database after the call together with the HTTP-level outcome; all
validation happens before any write, so on error the returned database
is the input database. -/
def createOrder (db : DB) (caller : TokenClaims) (req : CreateOrderReq)
    (newId : Nat) (date : String) (now : Nat) : DB × Except ErrorResponse Order :=
  match checkOrderReq req with
  | some e => (db, .error e)
  | none =>
    match validateItems db.books req.items with
    | .error e => (db, .error e)
    | .ok (totalAmount, validatedItems) =>
      let order : Order :=
        { id := newId
          orderNumber := generateOrderNumber db.orders date
          userId := caller.userId
          items := validatedItems
          totalAmount := totalAmount
          status := "pending"
          statusHistory := [{ status := "pending", notes := "Order created", timestamp := now }]
          shippingAddress := req.shippingAddress.getD { address := "", city := "" }
          paymentMethod := req.paymentMethod
          notes := req.notes.getD ("")
          createdAt := now }
      let db1 : DB := { db with orders := db.orders ++ [order] }
      let db2 : DB := { db1 with books := applyDecrements db1.books validatedItems }
      let db3 : DB := { db2 with users := clearCart db2.users caller.userId }
      (db3, .ok order)

/-- The createOrderFromCart controller: loads the cart of the calling
user, rejects an empty cart, maps every cart line to an order item and
delegates to createOrder. The cart endpoints of routes/user.js write
lines with neither a bookId field nor a per-line _id, so the JS fallback
expression cartItem.bookId or cartItem._id is undefined for every line
this system can produce; the mapped bookId is therefore none. -/
def createOrderFromCart (db : DB) (caller : TokenClaims) (shippingAddress : Option Address)
    (paymentMethod : String) (notes : Option String)
    (newId : Nat) (date : String) (now : Nat) : DB × Except ErrorResponse Order :=
  match findUser db.users caller.userId with
  | none => (db, .error { status := 400, error := "Cart is empty" })
  | some u =>
    if u.cart.isEmpty then
      (db, .error { status := 400, error := "Cart is empty" })
    else
      let items := u.cart.map (fun l => ({ bookId := none, quantity := l.quantity } : OrderItemReq))
      createOrder db caller
        { items := items, shippingAddress := shippingAddress,
          paymentMethod := paymentMethod, notes := notes } newId date now

/-- The list of statuses accepted by updateOrderStatus. -/
def validStatuses : List String :=
  ["pending", "confirmed", "processing", "shipped", "delivered", "cancelled"]

/-- Order.updateStatus: one updateOne that sets the status and pushes a
statusHistory entry on the order with the given id. -/
def applyStatusUpdate (orders : List Order) (oid : Nat) (status notes : String) (now : Nat) :
    List Order :=
  orders.map (fun o =>
    if o.id == oid then
      { o with status := status,
               statusHistory := o.statusHistory ++ [{ status := status, notes := notes, timestamp := now }] }
    else o)

/-- The updateOrderStatus controller (PUT /api/orders/:id/status). The
ObjectId validity check is not modelled because ids are naturals here.
Note the authorization guard for non-admins: it rejects only when the new
status differs from cancelled AND the current status differs from
pending, exactly as the source conjunction reads. -/
def updateOrderStatus (db : DB) (caller : TokenClaims) (oid : Nat)
    (status : String) (notes : Option String) (now : Nat) : DB × Except ErrorResponse Order :=
  if !(validStatuses.contains status) then
    (db, .error { status := 400,
                  error := "Invalid status. Valid statuses: " ++ String.intercalate (", ") validStatuses })
  else
    match findOrder db.orders oid with
    | none => (db, .error { status := 404, error := "Order not found" })
    | some order =>
      if caller.role != some ("admin") && order.userId != caller.userId then
        (db, .error { status := 403, error := "Access denied" })
      else if caller.role != some ("admin") && status != "cancelled" && order.status != "pending" then
        (db, .error { status := 403, error := "You can only cancel pending orders" })
      else
        let orders2 := applyStatusUpdate db.orders oid status (notes.getD ("")) now
        let db2 : DB := { db with orders := orders2 }
        match findOrder orders2 oid with
        | some updated => (db2, .ok updated)
        | none => (db2, .error { status := 404, error := "Order not found" })

/-- Pagination metadata as returned by Order.findAll. -/
structure Pagination where
  page : Nat
  limit : Nat
  total : Nat
  pages : Nat
deriving DecidableEq

/-- The query string of GET /api/orders. -/
structure OrdersQuery where
  page : Nat
  limit : Nat
  status : Option String
  userId : Option Nat
deriving DecidableEq

/-- Stable insertion of an order into a list kept sorted by createdAt
descending, modelling the Mongo sort specification createdAt: -1. -/
def insertDescByCreated (o : Order) : List Order → List Order
  | [] => [o]
  | x :: xs => if o.createdAt ≤ x.createdAt then x :: insertDescByCreated o xs else o :: x :: xs

/-- Sort orders newest-first by creation time. -/
def sortDescByCreated : List Order → List Order
  | [] => []
  | x :: xs => insertDescByCreated x (sortDescByCreated xs)

/-- Order.findAll: filter (optionally by userId and by status), sort
newest-first, paginate with skip and limit, and report the total match
count with a page count of ceil(total / limit). -/
def ordersFindAll (orders : List Order) (userFilter : Option Nat) (statusFilter : Option String)
    (page limit : Nat) : List Order × Pagination :=
  let matched := orders.filter (fun o =>
    (match userFilter with
     | none => true
     | some uid => o.userId == uid) &&
    (match statusFilter with
     | none => true
     | some s => o.status == s))
  let pageList := ((sortDescByCreated matched).drop ((page - 1) * limit)).take limit
  (pageList, { page := page, limit := limit, total := matched.length,
               pages := (matched.length + limit - 1) / limit })

/-- The getAllOrders controller (GET /api/orders): a non-admin with no
userId query parameter is restricted to their own orders, but a supplied
userId query parameter is used as the filter for any caller, exactly as
the source condition reads. -/
def getAllOrders (db : DB) (caller : TokenClaims) (q : OrdersQuery) : List Order × Pagination :=
  let userFilter :=
    if caller.role != some ("admin") && q.userId == none then some caller.userId else q.userId
  ordersFindAll db.orders userFilter q.status q.page q.limit

/-- The getUserOrders controller (GET /api/orders/user/:userId), which
itself refuses non-admin callers before listing the orders of the
target user. -/
def getUserOrders (db : DB) (caller : TokenClaims) (targetUserId : Nat) (page limit : Nat) :
    Except ErrorResponse (List Order × Pagination) :=
  if caller.role != some ("admin") then .error { status := 403, error := "Access denied" }
  else .ok (ordersFindAll db.orders (some targetUserId) none page limit)

namespace OrdersRoute

/-- The requireAdmin middleware defined locally in routes/orders.js: it
inspects req.user.role, that is, the role field of the decoded token
claims, and never consults the user store. -/
def requireAdmin (claims : TokenClaims) : Option ErrorResponse :=
  if claims.role != some ("admin") then some { status := 403, error := "Admin access required" }
  else none

end OrdersRoute

namespace AuthMiddleware

/-- The requireAdmin middleware of middleware/auth.js: it re-reads the
user from the user store and checks the stored role. No route file
imports it; it is modelled here to compare the two gates. -/
def requireAdmin (db : DB) (claims : TokenClaims) : Option ErrorResponse :=
  match findUser db.users claims.userId with
  | none => some { status := 403, error := "Admin access required" }
  | some u =>
    if u.role != "admin" then some { status := 403, error := "Admin access required" }
    else none

end AuthMiddleware

/-- Express composition of the routes/orders.js requireAdmin middleware
with a downstream handler, as used by GET /api/orders/user/:userId and
PUT /api/orders/:id. -/
def gatedOrderRoute {α : Type} (claims : TokenClaims) (handler : Unit → Except ErrorResponse α) :
    Except ErrorResponse α :=
  match OrdersRoute.requireAdmin claims with
  | some e => .error e
  | none => handler ()

/-- The full GET /api/orders/user/:userId route: token-claims admin gate,
then the getUserOrders handler. -/
def gatedGetUserOrders (db : DB) (claims : TokenClaims) (targetUserId : Nat) (page limit : Nat) :
    Except ErrorResponse (List Order × Pagination) :=
  gatedOrderRoute claims (fun _ => getUserOrders db claims targetUserId page limit)

/-- Increment the quantity of the first cart line with the given title,
as user.cart[existingItemIndex].quantity += 1 does. -/
def incFirst : List CartLine → String → List CartLine
  | [], _ => []
  | l :: rest, t =>
    if l.title == t then { l with quantity := l.quantity + 1 } :: rest
    else l :: incFirst rest t

/-- Remove the first cart line with the given title, as
user.cart.splice(itemIndex, 1) does. -/
def removeFirst : List CartLine → String → List CartLine
  | [], _ => []
  | l :: rest, t => if l.title == t then rest else l :: removeFirst rest t

/-- Set the quantity of the first cart line with the given title, as
user.cart[itemIndex].quantity = quantity does. -/
def setQtyFirst : List CartLine → String → Int → List CartLine
  | [], _, _ => []
  | l :: rest, t, q =>
    if l.title == t then { l with quantity := q } :: rest
    else l :: setQtyFirst rest t q

/-- POST /cart/add at the cart level: validates the falsy-checked fields,
then either increments the quantity of the existing line with the same
title (price untouched) or appends a new line with quantity 1. -/
def cartAdd (cart : List CartLine) (title author : String) (price : Int) (description : String)
    (now : Nat) : Except ErrorResponse (List CartLine) :=
  if title == "" || author == "" || price == 0 then
    .error { status := 400, error := "Title, author, and price are required" }
  else if (cart.find? (fun l => l.title == title)).isSome then
    .ok (incFirst cart title)
  else
    .ok (cart ++ [{ title := title, author := author, price := price,
                    description := description, quantity := 1, addedAt := now }])

/-- PUT /cart/update at the cart level: quantity 0 removes the line,
a positive quantity replaces it, an absent title is NotFound. -/
def cartUpdate (cart : List CartLine) (title : String) (quantity : Int) :
    Except ErrorResponse (List CartLine) :=
  if title == "" || quantity < 0 then
    .error { status := 400, error := "Valid title and quantity are required" }
  else if (cart.find? (fun l => l.title == title)).isNone then
    .error { status := 404, error := "Item not found in cart" }
  else if quantity == 0 then .ok (removeFirst cart title)
  else .ok (setQtyFirst cart title quantity)

/-- DELETE /cart/remove at the cart level: filter the title out. -/
def cartRemove (cart : List CartLine) (title : String) : Except ErrorResponse (List CartLine) :=
  if title == "" then .error { status := 400, error := "Title is required" }
  else .ok (cart.filter (fun l => l.title != title))

/-- POST /cart/clear at the cart level. -/
def cartClear (_cart : List CartLine) : List CartLine := []

/-- Book.updateById restricted to a price change: a $set on the books
collection; no other collection is touched. -/
def updateBookPrice (db : DB) (bid : Nat) (price : Int) : DB :=
  { db with books := db.books.map (fun b => if b.id == bid then { b with price := price } else b) }

/-- Category.countBooks: countDocuments of books whose category reference
equals the given category id. -/
def countBooks (books : List Book) (cid : Nat) : Nat :=
  (books.filter (fun b => b.category == some cid)).length

/-- Mongo deleteOne on the categories collection: removes the first
document with the given id. -/
def removeFirstCat : List Category → Nat → List Category
  | [], _ => []
  | c :: rest, i => if c.id == i then rest else c :: removeFirstCat rest i

/-- ASCII lowercase of one character. -/
def lowerChar (c : Char) : Char :=
  if 'A' ≤ c ∧ c ≤ 'Z' then Char.ofNat (c.toNat + 32) else c

/-- ASCII lowercase of a string, modelling the case-insensitive regex
comparison of Category.findByName. -/
def lowerStr (s : String) : String :=
  String.mk (s.data.map lowerChar)

/-- Category.findByName: case-insensitive exact-name lookup. -/
def findCategoryByName (cats : List Category) (name : String) : Option Category :=
  cats.find? (fun c => lowerStr c.name == lowerStr name)

/-- The createCategory controller, modelled for its duplicate-name
outcome: a duplicate name is answered with HTTP 409. -/
def createCategory (db : DB) (name description : String) (isActive : Option Bool) (newId : Nat) :
    DB × Except ErrorResponse Category :=
  if name == "" then
    (db, .error { status := 400, error := "Category name is required" })
  else
    match findCategoryByName db.categories name with
    | some _ => (db, .error { status := 409, error := "Category with this name already exists" })
    | none =>
      let cat : Category :=
        { id := newId, name := name.trim, description := description, isActive := isActive.getD true }
      ({ db with categories := db.categories ++ [cat] }, .ok cat)

/-- The deleteCategory controller (DELETE /api/categories/:id): a
category with dependent books is refused with HTTP 400 unless the query
parameter force equals the string true; a forced deletion removes the
category and unsets the category reference on the dependent books. -/
def deleteCategory (db : DB) (cid : Nat) (force : Option String) : DB × Except ErrorResponse Unit :=
  let bookCount := countBooks db.books cid
  if bookCount > 0 && force != some ("true") then
    (db, .error { status := 400,
                  error := "Cannot delete category with " ++ toString bookCount ++
                           " books. Use force=true to delete anyway." })
  else if (db.categories.find? (fun c => c.id == cid)).isNone then
    (db, .error { status := 404, error := "Category not found" })
  else
    let db1 : DB := { db with categories := removeFirstCat db.categories cid }
    if force == some ("true") && bookCount > 0 then
      ({ db1 with books := db1.books.map (fun b =>
          if b.category == some cid then { b with category := none } else b) }, .ok ())
    else
      (db1, .ok ())

/-- Total quantity a request orders for the book with the given id:
the sum of the quantities of the request items referencing it. -/
def reqQty (items : List OrderItemReq) (bid : Nat) : Int :=
  ((items.filter (fun i => i.bookId == some bid)).map OrderItemReq.quantity).sum

/-- Total quantity a list of order lines carries for the book with the
given id. -/
def lineQty (lines : List OrderLine) (bid : Nat) : Int :=
  ((lines.filter (fun l => l.bookId == bid)).map OrderLine.quantity).sum

/-- What POST /cart/add does when a line with the requested title is
already in the cart: the call succeeds, returns the cart with only the
first matching line changed, that change being a quantity increment by
one; titles, prices and the line count are untouched and no line is
appended. -/
def CartAddExistingBehavior (cart : List CartLine) (t a : String) (p : Int) (d : String)
    (now : Nat) : Prop :=
  cartAdd cart t a p d now = .ok (incFirst cart t)
  ∧ (incFirst cart t).map CartLine.title = cart.map CartLine.title
  ∧ (incFirst cart t).map CartLine.price = cart.map CartLine.price
  ∧ (incFirst cart t).length = cart.length
  ∧ ∃ pre line post, cart = pre ++ line :: post
      ∧ (∀ l2 ∈ pre, l2.title ≠ t) ∧ line.title = t
      ∧ incFirst cart t = pre ++ { line with quantity := line.quantity + 1 } :: post

/-- All four cart operations keep at most one line per distinct title,
and adding an existing title increments in place. -/
def CartOpsPreserveUniqueTitles (cart : List CartLine) : Prop :=
  (∀ t a p d now cart2, cartAdd cart t a p d now = .ok cart2 → (cart2.map CartLine.title).Nodup)
  ∧ (∀ t q cart2, cartUpdate cart t q = .ok cart2 → (cart2.map CartLine.title).Nodup)
  ∧ (∀ t cart2, cartRemove cart t = .ok cart2 → (cart2.map CartLine.title).Nodup)
  ∧ ((cartClear cart).map CartLine.title).Nodup
  ∧ (∀ t a p d now, (t == "" || a == "" || p == 0) = false →
       (∃ l ∈ cart, l.title = t) → CartAddExistingBehavior cart t a p d now)

/-! Concrete instances used by the witnesses and the evaluations of the
code at failing inputs. -/

/-- A book with price 450 and stock 5. -/
def witBook : Book :=
  { id := 1, title := "Dune", author := "Herbert", description := "",
    price := 450, category := some 7, stock := 5 }

/-- A cart line for that book as the cart endpoints store it, at
quantity 2. -/
def witCartLine : CartLine :=
  { title := "Dune", author := "Herbert", price := 450, description := "",
    quantity := 2, addedAt := 3 }

/-- An ordinary user with that cart line. -/
def witUser : User :=
  { id := 10, name := "Alice", email := "a@x.com", role := "user", cart := [witCartLine] }

/-- A database with one book, one user and no orders. -/
def witDb : DB := { books := [witBook], users := [witUser], orders := [], categories := [] }

/-- The token the login endpoint issues for that user. -/
def witCaller : TokenClaims := signToken 10 "a@x.com"

/-- A shipping address passing validation. -/
def witAddr : Address := { address := "12 Road", city := "Lagos" }

/-- A valid create-order request for two copies of the book. -/
def witReq : CreateOrderReq :=
  { items := [{ bookId := some 1, quantity := 2 }],
    shippingAddress := some witAddr, paymentMethod := "card", notes := none }

/-- The same request asking for nine copies, more than the stock. -/
def witReqBad : CreateOrderReq :=
  { items := [{ bookId := some 1, quantity := 9 }],
    shippingAddress := some witAddr, paymentMethod := "card", notes := none }

/-- The order createOrder builds from witReq on witDb. -/
def witOrderOut : Order :=
  { id := 99, orderNumber := "ORD-20260101-0001", userId := 10,
    items := [{ bookId := 1, title := "Dune", author := "Herbert",
                price := 450, quantity := 2, subtotal := 900 }],
    totalAmount := 900, status := "pending",
    statusHistory := [{ status := "pending", notes := "Order created", timestamp := 7 }],
    shippingAddress := witAddr, paymentMethod := "card", notes := "", createdAt := 7 }

/-- The database state after that order: stock decremented to 3, cart
cleared, order persisted. -/
def witDbOut : DB :=
  { books := [{ witBook with stock := 3 }],
    users := [{ witUser with cart := [] }],
    orders := [witOrderOut], categories := [] }

/-- A pending order owned by user 10, used for the status-update
scenarios. -/
def witOrder4 : Order :=
  { id := 1, orderNumber := "ORD-20260101-0001", userId := 10,
    items := [], totalAmount := 0, status := "pending",
    statusHistory := [{ status := "pending", notes := "Order created", timestamp := 0 }],
    shippingAddress := witAddr, paymentMethod := "card", notes := "", createdAt := 0 }

/-- A database holding that pending order. -/
def witDb4 : DB := { books := [], users := [witUser], orders := [witOrder4], categories := [] }

/-- The same order after the owner sets it to shipped. -/
def witOrder4Shipped : Order :=
  { witOrder4 with
    status := "shipped"
    statusHistory := witOrder4.statusHistory ++ [{ status := "shipped", notes := "", timestamp := 5 }] }

/-- The pending order with status shipped instead, for the
cancel-a-shipped-order scenario. -/
def witOrder4b : Order := { witOrder4 with status := "shipped" }

/-- A database holding the shipped order. -/
def witDb4b : DB := { witDb4 with orders := [witOrder4b] }

/-- The shipped order after the owner cancels it. -/
def witOrder4bCancelled : Order :=
  { witOrder4b with
    status := "cancelled"
    statusHistory := witOrder4b.statusHistory ++ [{ status := "cancelled", notes := "", timestamp := 5 }] }

/-- An order owned by user 22, used for the listing scenario. -/
def witOrder5 : Order := { witOrder4 with userId := 22 }

/-- A database holding only the order of user 22. -/
def witDb5 : DB := { books := [], users := [], orders := [witOrder5], categories := [] }

/-- The GET /api/orders query of user 10 asking for the orders of
user 22. -/
def witQuery5 : OrdersQuery := { page := 1, limit := 10, status := none, userId := some 22 }

/-- A user whose stored role is admin. -/
def witAdminUser : User :=
  { id := 10, name := "Root", email := "admin@x.com", role := "admin", cart := [] }

/-- A database whose only user is that stored admin. -/
def witDb6 : DB := { books := [], users := [witAdminUser], orders := [], categories := [] }

/-- The token login issues for the stored admin: no role claim. -/
def witTok6 : TokenClaims := signToken 10 "admin@x.com"

/-- The cart line right after the first POST /cart/add of the book. -/
def witDuneLine1 : CartLine :=
  { title := "Dune", author := "Herbert", price := 450, description := "",
    quantity := 1, addedAt := 3 }

/-- The cart line after adding the same title a second time. -/
def witDuneLine2 : CartLine := { witDuneLine1 with quantity := 2 }

/-- The title, author and description strings of the cart scenario. -/
def witDuneTitle : String := "Dune"

/-- The author argument of the cart scenario. -/
def witDuneAuthor : String := "Herbert"

/-- The empty description argument of the cart scenario. -/
def witNoDescription : String := ""

/-- The date string used for order numbers in the scenarios. -/
def witDate : String := "20260101"

/-- The payment method used in the scenarios. -/
def witPayment : String := "card"

/-- The category with dependent books. -/
def witCat8 : Category := { id := 1, name := "Fantasy", description := "", isActive := true }

/-- A database with one category and two books referencing it. -/
def witDb8 : DB :=
  { books := [{ witBook with category := some 1 }, { witBook with id := 2, category := some 1 }],
    users := [], orders := [], categories := [witCat8] }

/-- The lower-case duplicate of the category name. -/
def witFantasyLower : String := "fantasy"

/-- A two-line cart with distinct titles. -/
def witCart9 : List CartLine :=
  [{ title := "A", author := "a", price := 5, description := "", quantity := 1, addedAt := 0 },
   { title := "B", author := "b", price := 3, description := "", quantity := 2, addedAt := 0 }]

/-!
Theorems. Helper lemmas come first, then one theorem per claim, each
with its witness where the theorem carries hypotheses.
-/

/-- Unfolding lemma: the per-book line quantity over a cons. -/
theorem lineQty_cons (l : OrderLine) (ls : List OrderLine) (bid : Nat) :
    lineQty (l :: ls) bid = (if l.bookId = bid then l.quantity else 0) + lineQty ls bid := by
  by_cases h : l.bookId = bid <;> simp [lineQty, List.filter_cons, h]

/-- Unfolding lemma: the per-book requested quantity over a cons. -/
theorem reqQty_cons (i : OrderItemReq) (is : List OrderItemReq) (bid : Nat) :
    reqQty (i :: is) bid = (if i.bookId = some bid then i.quantity else 0) + reqQty is bid := by
  by_cases h : i.bookId = some bid <;> simp [reqQty, List.filter_cons, h]

/-- Inversion of a successful validation pass: the accumulated total is
the sum of the produced subtotals, the produced lines mirror the request
items (same book references and quantities, in order), per-book totals
agree with the request, and every line snapshots an existing book with
its current price and a positive quantity within stock. -/
theorem validateItems_ok (books : List Book) (items : List OrderItemReq) :
    ∀ (total : Int) (lines : List OrderLine),
      validateItems books items = .ok (total, lines) →
      total = (lines.map OrderLine.subtotal).sum
      ∧ lines.map (fun l => (some l.bookId, l.quantity))
          = items.map (fun i => (i.bookId, i.quantity))
      ∧ (∀ bid2, lineQty lines bid2 = reqQty items bid2)
      ∧ ∀ l ∈ lines, ∃ book, findBook books l.bookId = some book
          ∧ l.price = book.price ∧ l.title = book.title ∧ l.author = book.author
          ∧ l.subtotal = book.price * l.quantity
          ∧ 0 < l.quantity ∧ l.quantity ≤ book.stock := by
  induction items with
  | nil =>
    intro total lines h
    simp only [validateItems, Except.ok.injEq, Prod.mk.injEq] at h
    obtain ⟨h1, h2⟩ := h
    subst h1; subst h2
    refine ⟨by simp, by simp, ?_, by simp⟩
    intro bid2; simp [lineQty, reqQty]
  | cons item rest ih =>
    intro total lines h
    simp only [validateItems] at h
    split at h
    next => simp at h
    next bid hbid =>
      split at h
      next => simp at h
      next hq =>
        split at h
        next => simp at h
        next book hfind =>
          split at h
          next => simp at h
          next hs =>
            split at h
            next => simp at h
            next t0 ls0 hrest =>
              simp only [Except.ok.injEq, Prod.mk.injEq] at h
              obtain ⟨h1, h2⟩ := h
              subst h1; subst h2
              obtain ⟨ih1, ih2, ih3, ih4⟩ := ih t0 ls0 hrest
              refine ⟨by simp [ih1], by simp [hbid, ih2], ?_, ?_⟩
              · intro bid2
                rw [lineQty_cons, reqQty_cons, ih3 bid2, hbid]
                by_cases hb : bid = bid2 <;> simp [hb]
              · intro l hl
                rcases List.mem_cons.1 hl with rfl | hl2
                · refine ⟨book, hfind, rfl, rfl, rfl, rfl, ?_, ?_⟩
                  · show (0 : Int) < item.quantity
                    omega
                  · show item.quantity ≤ book.stock
                    omega
                · exact ih4 l hl2

/-- Inversion of a successful createOrder call: the validation pass
succeeded, the returned order carries its result, and the final database
is the input database with the order appended, the decrements applied
and the cart of the caller cleared. -/
theorem createOrder_ok_inv
    (db : DB) (caller : TokenClaims) (req : CreateOrderReq)
    (newId : Nat) (date : String) (now : Nat) (db2 : DB) (order : Order)
    (h : createOrder db caller req newId date now = (db2, .ok order)) :
    ∃ total lines, validateItems db.books req.items = .ok (total, lines)
      ∧ order.items = lines ∧ order.totalAmount = total ∧ order.userId = caller.userId
      ∧ db2.books = applyDecrements db.books lines
      ∧ db2.users = clearCart db.users caller.userId
      ∧ db2.orders = db.orders ++ [order] := by
  unfold createOrder at h
  split at h
  next => simp at h
  next =>
    split at h
    next => simp at h
    next total lines hval =>
      simp only [Prod.mk.injEq, Except.ok.injEq] at h
      obtain ⟨hdb, hord⟩ := h
      subst hdb; subst hord
      exact ⟨total, lines, hval, rfl, rfl, rfl, rfl, rfl, rfl⟩

/-- C1: a successful createOrder returns an order whose totalAmount is
the sum of its line subtotals; every line snapshots the price the
referenced book had in the database at call time, with subtotal equal
to that price times the quantity; the lines mirror the requested book
references and quantities; and a later book price update rewrites only
the books collection, leaving every persisted order, hence its
totalAmount, untouched. -/
theorem createOrder_totalAmount_correct
    (db : DB) (caller : TokenClaims) (req : CreateOrderReq)
    (newId : Nat) (date : String) (now : Nat) (db2 : DB) (order : Order)
    (h : createOrder db caller req newId date now = (db2, .ok order)) :
    order.totalAmount = (order.items.map OrderLine.subtotal).sum
    ∧ (∀ l ∈ order.items, ∃ book, findBook db.books l.bookId = some book
         ∧ l.price = book.price ∧ l.subtotal = book.price * l.quantity)
    ∧ order.items.map (fun l => (some l.bookId, l.quantity))
        = req.items.map (fun i => (i.bookId, i.quantity))
    ∧ (∀ bid p, (updateBookPrice db2 bid p).orders = db2.orders) := by
  obtain ⟨total, lines, hval, hitems, htot, -, -, -, -⟩ :=
    createOrder_ok_inv db caller req newId date now db2 order h
  obtain ⟨h1, h2, -, h4⟩ := validateItems_ok db.books req.items total lines hval
  subst hitems
  refine ⟨htot.trans h1, ?_, h2, fun bid p => rfl⟩
  intro l hl
  obtain ⟨book, hfind, hprice, -, -, hsub, -, -⟩ := h4 l hl
  exact ⟨book, hfind, hprice, hsub⟩

/-- Witness for C1: the concrete one-book order of two copies at price
450 succeeds with total 900 and satisfies every conjunct. -/
theorem createOrder_totalAmount_correct_witness :
    witOrderOut.totalAmount = (witOrderOut.items.map OrderLine.subtotal).sum
    ∧ (∀ l ∈ witOrderOut.items, ∃ book, findBook witDb.books l.bookId = some book
         ∧ l.price = book.price ∧ l.subtotal = book.price * l.quantity)
    ∧ witOrderOut.items.map (fun l => (some l.bookId, l.quantity))
        = witReq.items.map (fun i => (i.bookId, i.quantity))
    ∧ (∀ bid p, (updateBookPrice witDbOut bid p).orders = witDbOut.orders) :=
  createOrder_totalAmount_correct witDb witCaller witReq 99 witDate 7 witDbOut witOrderOut
    (by decide)

/-- The sequential per-line stock decrements amount to subtracting, for
every book in the collection, the total line quantity carried for it. -/
theorem applyDecrements_eq (lines : List OrderLine) :
    ∀ books : List Book,
      applyDecrements books lines
        = books.map (fun b => { b with stock := b.stock - lineQty lines b.id }) := by
  induction lines with
  | nil =>
    intro books
    show books = _
    simp only [lineQty, List.filter_nil, List.map_nil, List.sum_nil, Int.sub_zero]
    exact (List.map_id books).symm
  | cons l rest ih =>
    intro books
    show applyDecrements (decStock books l.bookId l.quantity) rest = _
    rw [ih]
    simp only [decStock, List.map_map]
    apply List.map_congr_left
    intro b _
    by_cases hid : b.id = l.bookId
    · simp [Function.comp, hid, lineQty_cons, Int.sub_sub]
    · have hid2 : ¬ l.bookId = b.id := fun hh => hid hh.symm
      simp [Function.comp, hid, hid2, lineQty_cons]

/-- C2: a successful createOrder leaves the books collection equal to
the original with every book's stock reduced by exactly the total
quantity the request ordered for that book (zero for books the request
does not reference), and every user record with the caller's id has an
empty cart afterwards. -/
theorem createOrder_decrements_stock_and_clears_cart
    (db : DB) (caller : TokenClaims) (req : CreateOrderReq)
    (newId : Nat) (date : String) (now : Nat) (db2 : DB) (order : Order)
    (h : createOrder db caller req newId date now = (db2, .ok order)) :
    db2.books = db.books.map (fun b => { b with stock := b.stock - reqQty req.items b.id })
    ∧ ∀ u ∈ db2.users, u.id = caller.userId → u.cart = [] := by
  obtain ⟨total, lines, hval, -, -, -, hbooks, husers, -⟩ :=
    createOrder_ok_inv db caller req newId date now db2 order h
  obtain ⟨-, -, h3, -⟩ := validateItems_ok db.books req.items total lines hval
  constructor
  · rw [hbooks, applyDecrements_eq]
    apply List.map_congr_left
    intro b _
    rw [h3]
  · intro u hu hid
    rw [husers] at hu
    simp only [clearCart] at hu
    rcases List.mem_map.1 hu with ⟨u0, _, hmapeq⟩
    subst hmapeq
    by_cases hc : u0.id = caller.userId
    · simp [hc]
    · simp only [hc, beq_iff_eq, if_neg] at hid ⊢
      exact absurd hid hc

/-- Witness for C2: in the concrete scenario the stock drops from 5 to 3
and the cart of user 10 is empty afterwards. -/
theorem createOrder_decrements_stock_and_clears_cart_witness :
    witDbOut.books
        = witDb.books.map (fun b => { b with stock := b.stock - reqQty witReq.items b.id })
    ∧ ∀ u ∈ witDbOut.users, u.id = witCaller.userId → u.cart = [] :=
  createOrder_decrements_stock_and_clears_cart witDb witCaller witReq 99 witDate 7
    witDbOut witOrderOut (by decide)

/-- If every request item is well formed and references an existing
book, and some item asks for more than the stock of its book, then the
validation pass returns exactly the insufficient-stock error, naming
the book and the available and requested counts. -/
theorem validateItems_stock_error (books : List Book) (items : List OrderItemReq)
    (hwf : ∀ i ∈ items, ∃ bid book, i.bookId = some bid ∧ 0 < i.quantity
             ∧ findBook books bid = some book)
    (hbad : ∃ i ∈ items, ∃ bid book, i.bookId = some bid
             ∧ findBook books bid = some book ∧ book.stock < i.quantity) :
    ∃ i ∈ items, ∃ bid book, i.bookId = some bid
      ∧ findBook books bid = some book ∧ book.stock < i.quantity
      ∧ validateItems books items
          = .error { status := 400, error := insufficientStockMsg book i.quantity } := by
  induction items with
  | nil => exact absurd hbad (by simp)
  | cons item rest ih =>
    obtain ⟨bid, book, hbid, hq, hfind⟩ := hwf item (List.mem_cons_self item rest)
    by_cases hs : book.stock < item.quantity
    · refine ⟨item, List.mem_cons_self item rest, bid, book, hbid, hfind, hs, ?_⟩
      have hq2 : ¬ item.quantity ≤ 0 := by omega
      simp [validateItems, hbid, hq2, hfind, hs]
    · have hbadr : ∃ i ∈ rest, ∃ bid2 book2, i.bookId = some bid2
          ∧ findBook books bid2 = some book2 ∧ book2.stock < i.quantity := by
        obtain ⟨i, hi, bid2, book2, hbid2, hfind2, hs2⟩ := hbad
        rcases List.mem_cons.1 hi with rfl | hir
        · rw [hbid] at hbid2
          obtain rfl : bid = bid2 := by injection hbid2
          rw [hfind] at hfind2
          obtain rfl : book = book2 := by injection hfind2
          exact absurd hs2 hs
        · exact ⟨i, hir, bid2, book2, hbid2, hfind2, hs2⟩
      obtain ⟨i, hi, bid2, book2, hbid2, hfind2, hs2, hval⟩ :=
        ih (fun j hj => hwf j (List.mem_cons_of_mem item hj)) hbadr
      refine ⟨i, List.mem_cons_of_mem item hi, bid2, book2, hbid2, hfind2, hs2, ?_⟩
      have hq2 : ¬ item.quantity ≤ 0 := by omega
      simp [validateItems, hbid, hq2, hfind, hs, hval]

/-- C3: when the request passes the up-front checks, every item is well
formed and references an existing book, and some item requests more
than the current stock of its book, createOrder answers with status 400
and the insufficient-stock message naming that book and the available
and requested counts, and the returned database is the input database:
no order is persisted, no stock is changed, no cart is touched. -/
theorem createOrder_insufficient_stock
    (db : DB) (caller : TokenClaims) (req : CreateOrderReq)
    (newId : Nat) (date : String) (now : Nat)
    (hpre : checkOrderReq req = none)
    (hwf : ∀ i ∈ req.items, ∃ bid book, i.bookId = some bid ∧ 0 < i.quantity
             ∧ findBook db.books bid = some book)
    (hbad : ∃ i ∈ req.items, ∃ bid book, i.bookId = some bid
             ∧ findBook db.books bid = some book ∧ book.stock < i.quantity) :
    (createOrder db caller req newId date now).1 = db
    ∧ ∃ i ∈ req.items, ∃ bid book, i.bookId = some bid
        ∧ findBook db.books bid = some book ∧ book.stock < i.quantity
        ∧ (createOrder db caller req newId date now).2
            = .error { status := 400, error := insufficientStockMsg book i.quantity } := by
  obtain ⟨i, hi, bid, book, hbid, hfind, hs, hval⟩ :=
    validateItems_stock_error db.books req.items hwf hbad
  have hco : createOrder db caller req newId date now
      = (db, .error { status := 400, error := insufficientStockMsg book i.quantity }) := by
    unfold createOrder
    rw [hpre, hval]
  rw [hco]
  exact ⟨rfl, i, hi, bid, book, hbid, hfind, hs, rfl⟩

/-- Witness for C3: requesting nine copies with stock 5 fails with the
message naming the book, 5 available and 9 requested, and leaves the
database untouched. -/
theorem createOrder_insufficient_stock_witness :
    (createOrder witDb witCaller witReqBad 99 witDate 7).1 = witDb
    ∧ ∃ i ∈ witReqBad.items, ∃ bid book, i.bookId = some bid
        ∧ findBook witDb.books bid = some book ∧ book.stock < i.quantity
        ∧ (createOrder witDb witCaller witReqBad 99 witDate 7).2
            = .error { status := 400, error := insufficientStockMsg book i.quantity } :=
  createOrder_insufficient_stock witDb witCaller witReqBad 99 witDate 7
    (by decide)
    (by
      intro i hi
      simp only [witReqBad, List.mem_singleton] at hi
      subst hi
      exact ⟨1, witBook, rfl, by decide, by decide⟩)
    ⟨{ bookId := some 1, quantity := 9 }, by decide, 1, witBook, rfl, by decide, by decide⟩

/-- C4, evaluated at the failing inputs: the non-admin owner guard of
updateOrderStatus only rejects when the new status differs from
cancelled AND the current status differs from pending, so a non-admin
owner successfully sets a pending order to shipped, and successfully
cancels a shipped order; the code permits both transitions the claim
says must be Forbidden, contradicting the rule stated by the code's own
error message that users can only cancel pending orders. -/
theorem updateOrderStatus_nonadmin_guard_bypassed :
    witCaller.role = none
    ∧ witOrder4.userId = witCaller.userId
    ∧ witOrder4.status = "pending"
    ∧ (updateOrderStatus witDb4 witCaller 1 "shipped" none 5).2 = .ok witOrder4Shipped
    ∧ witOrder4Shipped.status = "shipped"
    ∧ witOrder4b.status = "shipped"
    ∧ (updateOrderStatus witDb4b witCaller 1 "cancelled" none 5).2 = .ok witOrder4bCancelled
    ∧ witOrder4bCancelled.status = "cancelled" := by
  decide

/-- C5, evaluated at the failing input: a non-admin caller (user 10) who
supplies a userId query parameter naming another user (22) receives
that user's orders, because getAllOrders forces the own-user filter
only when no userId parameter is supplied. -/
theorem getAllOrders_honors_foreign_filter_for_nonadmin :
    witCaller.role = none
    ∧ witCaller.userId = 10
    ∧ witOrder5.userId = 22
    ∧ witQuery5.userId = some 22
    ∧ (getAllOrders witDb5 witCaller witQuery5).1 = [witOrder5] := by
  decide

/-- C6, evaluated at the failing input: user 10 has role admin in the
user store, and the store-reading requireAdmin of middleware/auth.js
would let the request through, but the requireAdmin actually wired into
the order routes reads the role from the token claims, where the login
token of user 10 carries none, so the admin-gated order route answers
403 Admin access required. -/
theorem requireAdmin_reads_token_not_store :
    (findUser witDb6.users witTok6.userId).map User.role = some ("admin")
    ∧ AuthMiddleware.requireAdmin witDb6 witTok6 = none
    ∧ OrdersRoute.requireAdmin witTok6 = some { status := 403, error := "Admin access required" }
    ∧ gatedGetUserOrders witDb6 witTok6 10 1 10
        = .error { status := 403, error := "Admin access required" } := by
  decide

/-- C7, evaluated at the spec's end-to-end scenario: two cart adds of
the same title produce one line with quantity 2; createOrderFromCart on
that cart then fails with status 400, because the cart line carries no
book reference and the mapped order item has no bookId, and the
database is returned unchanged: the stock stays 5, the cart stays
populated and no order is persisted. -/
theorem createOrderFromCart_scenario_rejected :
    cartAdd [] witDuneTitle witDuneAuthor 450 witNoDescription 3 = .ok [witDuneLine1]
    ∧ cartAdd [witDuneLine1] witDuneTitle witDuneAuthor 450 witNoDescription 3
        = .ok [witDuneLine2]
    ∧ witBook.stock = 5
    ∧ witDuneLine2.quantity = 2
    ∧ witUser.cart = [witDuneLine2]
    ∧ createOrderFromCart witDb witCaller (some witAddr) witPayment none 99 witDate 7
        = (witDb, .error { status := 400,
                           error := "Each item must have a valid bookId and quantity" }) := by
  decide

/-- C8 counterexample: deleting the category with two dependent books
and no force flag answers status 400, not the 409 this codebase uses
for Conflict (as its duplicate-name check shows), while deleting
nothing; so the claim that the failure is a Conflict is false on the
code. -/
theorem deleteCategory_blocked_is_400_not_conflict :
    countBooks witDb8.books 1 = 2
    ∧ (deleteCategory witDb8 1 none).1 = witDb8
    ∧ (∃ e, (deleteCategory witDb8 1 none).2 = .error e
         ∧ e.status = 400 ∧ e.status ≠ 409
         ∧ e.error = "Cannot delete category with 2 books. Use force=true to delete anyway.")
    ∧ (createCategory witDb8 witFantasyLower witNoDescription none 5).2
        = .error { status := 409, error := "Category with this name already exists" } := by
  refine ⟨by decide, by decide, ?_, by decide⟩
  exact ⟨{ status := 400,
           error := "Cannot delete category with 2 books. Use force=true to delete anyway." },
         by decide, by decide, by decide, by decide⟩

/-- C8 as amended: with N greater than 0 dependent books, deleting
without force set to the string true fails with status 400 (the
InvalidArgument status of this codebase, not Conflict), reporting the
count N in the message and changing nothing; with force set to true the
category is removed and the dependent books lose their category
reference while the books, users and orders collections otherwise
survive intact. -/
theorem deleteCategory_dependent_books (db : DB) (cid : Nat) (force : Option String)
    (hN : 0 < countBooks db.books cid) :
    (force ≠ some ("true") →
       deleteCategory db cid force
         = (db, .error { status := 400,
                         error := "Cannot delete category with "
                                  ++ toString (countBooks db.books cid)
                                  ++ " books. Use force=true to delete anyway." }))
    ∧ ((db.categories.find? (fun c => c.id == cid)).isSome →
         (deleteCategory db cid (some ("true"))).2 = .ok ()
         ∧ (deleteCategory db cid (some ("true"))).1.categories
             = removeFirstCat db.categories cid
         ∧ (deleteCategory db cid (some ("true"))).1.books
             = db.books.map (fun b =>
                 if b.category == some cid then { b with category := none } else b)
         ∧ (deleteCategory db cid (some ("true"))).1.users = db.users
         ∧ (deleteCategory db cid (some ("true"))).1.orders = db.orders) := by
  constructor
  · intro hf
    have hcond : (decide (countBooks db.books cid > 0) && (force != some ("true"))) = true := by
      simp only [Bool.and_eq_true, decide_eq_true_eq, bne_iff_ne]
      exact ⟨hN, hf⟩
    simp [deleteCategory, hcond]
  · intro hex
    have h2 : (db.categories.find? (fun c => c.id == cid)).isNone = false := by
      rcases hfind : db.categories.find? (fun c => c.id == cid) with _ | c
      · rw [hfind] at hex; simp at hex
      · rw [hfind]; rfl
    have hc1 : (decide (countBooks db.books cid > 0)
        && ((some ("true") : Option String) != some ("true"))) = false := by
      simp
    have hc3 : (((some ("true") : Option String) == some ("true"))
        && decide (countBooks db.books cid > 0)) = true := by
      simp only [Bool.and_eq_true, decide_eq_true_eq]
      exact ⟨rfl, hN⟩
    have hres : deleteCategory db cid (some ("true"))
        = ({ db with
             categories := removeFirstCat db.categories cid
             books := db.books.map (fun b =>
               if b.category == some cid then { b with category := none } else b) },
           .ok ()) := by
      simp [deleteCategory, hc1, h2, hc3]
      intro h0
      exact absurd h0 (by omega)
    rw [hres]
    exact ⟨rfl, rfl, rfl, rfl, rfl⟩

/-- Witness for the amended C8: the concrete category with two dependent
books is refused with the 400 message naming the count when unforced,
and a forced deletion removes it and detaches both books. -/
theorem deleteCategory_dependent_books_witness :
    (0 : Nat) < countBooks witDb8.books 1
    ∧ (deleteCategory witDb8 1 none
         = (witDb8, .error { status := 400,
                             error := "Cannot delete category with "
                                      ++ toString (countBooks witDb8.books 1)
                                      ++ " books. Use force=true to delete anyway." }))
    ∧ (deleteCategory witDb8 1 (some ("true"))).2 = .ok ()
    ∧ (deleteCategory witDb8 1 (some ("true"))).1.categories
        = removeFirstCat witDb8.categories 1
    ∧ (deleteCategory witDb8 1 (some ("true"))).1.books
        = witDb8.books.map (fun b =>
            if b.category == some 1 then { b with category := none } else b)
    ∧ (deleteCategory witDb8 1 (some ("true"))).1.users = witDb8.users
    ∧ (deleteCategory witDb8 1 (some ("true"))).1.orders = witDb8.orders := by
  have h := deleteCategory_dependent_books witDb8 1 none (by decide)
  exact ⟨by decide, h.1 (by decide), h.2 (by decide)⟩

/-- Incrementing the first matching line does not change the title
sequence of the cart. -/
theorem incFirst_map_title (cart : List CartLine) (t : String) :
    (incFirst cart t).map CartLine.title = cart.map CartLine.title := by
  induction cart with
  | nil => rfl
  | cons l rest ih =>
    by_cases h : l.title = t
    · simp [incFirst, h]
    · simp [incFirst, h, ih]

/-- Incrementing the first matching line does not change the price
sequence of the cart. -/
theorem incFirst_map_price (cart : List CartLine) (t : String) :
    (incFirst cart t).map CartLine.price = cart.map CartLine.price := by
  induction cart with
  | nil => rfl
  | cons l rest ih =>
    by_cases h : l.title = t
    · simp [incFirst, h]
    · simp [incFirst, h, ih]

/-- Incrementing the first matching line keeps the cart length. -/
theorem incFirst_length (cart : List CartLine) (t : String) :
    (incFirst cart t).length = cart.length := by
  have h := congrArg List.length (incFirst_map_title cart t)
  simpa using h

/-- Setting the quantity of the first matching line does not change the
title sequence of the cart. -/
theorem setQtyFirst_map_title (cart : List CartLine) (t : String) (q : Int) :
    (setQtyFirst cart t q).map CartLine.title = cart.map CartLine.title := by
  induction cart with
  | nil => rfl
  | cons l rest ih =>
    by_cases h : l.title = t
    · simp [setQtyFirst, h]
    · simp [setQtyFirst, h, ih]

/-- Removing the first matching line yields a sublist of the cart. -/
theorem removeFirst_sublist (cart : List CartLine) (t : String) :
    List.Sublist (removeFirst cart t) cart := by
  induction cart with
  | nil => simp [removeFirst]
  | cons l rest ih =>
    by_cases h : l.title = t
    · simp only [removeFirst, h, beq_self_eq_true, if_true]
      exact List.sublist_cons_self l rest
    · have hb : (l.title == t) = false := by simp [h]
      simp only [removeFirst, hb, Bool.false_eq_true, if_false]
      exact List.Sublist.cons₂ l ih

/-- A successful cart add keeps the titles duplicate-free. -/
theorem cartAdd_nodup (cart : List CartLine) (t a : String) (p : Int) (d : String) (now : Nat)
    (hinv : (cart.map CartLine.title).Nodup) :
    ∀ cart2, cartAdd cart t a p d now = .ok cart2 → (cart2.map CartLine.title).Nodup := by
  intro cart2 h
  unfold cartAdd at h
  split at h
  next => simp at h
  next =>
    split at h
    next =>
      simp only [Except.ok.injEq] at h
      subst h
      rw [incFirst_map_title]
      exact hinv
    next hfound =>
      simp only [Except.ok.injEq] at h
      subst h
      have hnone : cart.find? (fun l => l.title == t) = none := by
        rcases hh : cart.find? (fun l => l.title == t) with _ | l
        · exact hh
        · rw [hh] at hfound; simp at hfound
      have hnotin : t ∉ cart.map CartLine.title := by
        intro hmem
        rcases List.mem_map.1 hmem with ⟨l, hl, rfl⟩
        have h2 := List.find?_eq_none.1 hnone l hl
        simp at h2
      rw [List.map_append]
      refine (List.nodup_append).2 ⟨hinv, by simp, ?_⟩
      intro x hx hx2
      simp only [List.map_cons, List.map_nil, List.mem_singleton] at hx2
      subst hx2
      exact hnotin hx

/-- A successful cart quantity update keeps the titles duplicate-free. -/
theorem cartUpdate_nodup (cart : List CartLine) (t : String) (q : Int)
    (hinv : (cart.map CartLine.title).Nodup) :
    ∀ cart2, cartUpdate cart t q = .ok cart2 → (cart2.map CartLine.title).Nodup := by
  intro cart2 h
  unfold cartUpdate at h
  split at h
  next => simp at h
  next =>
    split at h
    next => simp at h
    next =>
      split at h
      next =>
        simp only [Except.ok.injEq] at h
        subst h
        exact List.Nodup.sublist ((removeFirst_sublist cart t).map CartLine.title) hinv
      next =>
        simp only [Except.ok.injEq] at h
        subst h
        rw [setQtyFirst_map_title]
        exact hinv

/-- The first matching line of a cart containing the title splits the
cart, and incFirst rewrites exactly that line to quantity plus one. -/
theorem incFirst_decomp (cart : List CartLine) (t : String)
    (hmem : ∃ l ∈ cart, l.title = t) :
    ∃ pre line post, cart = pre ++ line :: post
      ∧ (∀ l2 ∈ pre, l2.title ≠ t) ∧ line.title = t
      ∧ incFirst cart t = pre ++ { line with quantity := line.quantity + 1 } :: post := by
  induction cart with
  | nil => simp at hmem
  | cons l rest ih =>
    by_cases h : l.title = t
    · exact ⟨[], l, rest, rfl, by simp, h, by simp [incFirst, h]⟩
    · have hmem2 : ∃ l2 ∈ rest, l2.title = t := by
        obtain ⟨l2, hl2, ht⟩ := hmem
        rcases List.mem_cons.1 hl2 with rfl | hr
        · exact absurd ht h
        · exact ⟨l2, hr, ht⟩
      obtain ⟨pre, line, post, hcart, hpre, hline, hinc⟩ := ih hmem2
      refine ⟨l :: pre, line, post, by rw [hcart, List.cons_append], ?_, hline, ?_⟩
      · intro l2 hl2
        rcases List.mem_cons.1 hl2 with rfl | hp
        · exact h
        · exact hpre l2 hp
      · have hb : (l.title == t) = false := by simp [h]
        simp only [incFirst, hb, Bool.false_eq_true, if_false]
        rw [hinc, List.cons_append]

/-- Adding a title already in the cart behaves as an in-place increment
of the first matching line. -/
theorem cartAdd_existing (cart : List CartLine) (t a : String) (p : Int) (d : String) (now : Nat)
    (hv : (t == "" || a == "" || p == 0) = false)
    (hmem : ∃ l ∈ cart, l.title = t) :
    CartAddExistingBehavior cart t a p d now := by
  have hfind : (cart.find? (fun l => l.title == t)).isSome = true := by
    rw [List.find?_isSome]
    obtain ⟨l, hl, ht⟩ := hmem
    exact ⟨l, hl, by simp [ht]⟩
  exact ⟨by simp [cartAdd, hv, hfind], incFirst_map_title cart t, incFirst_map_price cart t,
         incFirst_length cart t, incFirst_decomp cart t hmem⟩

/-- C9: on a cart whose titles are duplicate-free, every cart operation
that succeeds (add, update, remove, clear) returns a cart whose titles
are still duplicate-free, and adding an item whose title is already
present increments the quantity of the first matching line by one in
place, refreshing neither the price nor any other line and appending
nothing. -/
theorem cart_ops_preserve_unique_titles (cart : List CartLine)
    (hinv : (cart.map CartLine.title).Nodup) :
    CartOpsPreserveUniqueTitles cart := by
  refine ⟨?_, ?_, ?_, ?_, ?_⟩
  · intro t a p d now cart2 h
    exact cartAdd_nodup cart t a p d now hinv cart2 h
  · intro t q cart2 h
    exact cartUpdate_nodup cart t q hinv cart2 h
  · intro t cart2 h
    unfold cartRemove at h
    split at h
    next => simp at h
    next =>
      simp only [Except.ok.injEq] at h
      subst h
      exact List.Nodup.sublist ((List.filter_sublist cart).map CartLine.title) hinv
  · simp [cartClear]
  · intro t a p d now hv hmem
    exact cartAdd_existing cart t a p d now hv hmem

/-- Witness for C9: a concrete two-line cart with distinct titles has
duplicate-free titles and enjoys all the preservation properties. -/
theorem cart_ops_preserve_unique_titles_witness :
    (witCart9.map CartLine.title).Nodup ∧ CartOpsPreserveUniqueTitles witCart9 :=
  ⟨by decide, cart_ops_preserve_unique_titles witCart9 (by decide)⟩

/-- C10: every token the register and login endpoints sign carries no
role claim, so the requireAdmin gate of the order routes, which reads
the role from the token claims, answers 403 Admin access required to
every bearer of such a token, admins and ordinary users alike, on every
admin-gated order route and regardless of the database state. -/
theorem issued_tokens_never_pass_orders_admin_gate (uid : Nat) (email : String) :
    (signToken uid email).role = none
    ∧ OrdersRoute.requireAdmin (signToken uid email)
        = some { status := 403, error := "Admin access required" }
    ∧ (∀ (α : Type) (handler : Unit → Except ErrorResponse α),
        gatedOrderRoute (signToken uid email) handler
          = .error { status := 403, error := "Admin access required" })
    ∧ (∀ (db : DB) (target page limit : Nat),
        gatedGetUserOrders db (signToken uid email) target page limit
          = .error { status := 403, error := "Admin access required" }) :=
  ⟨rfl, rfl, fun _ _ => rfl, fun _ _ _ _ => rfl⟩

end BookTree
